import Mathlib

set_option maxRecDepth 100000

/-
Verification of the Raceway Python SDK (causeway/sdks/python/raceway) against
its natural-language specification.  The Python modules trace_context.py,
context.py, client.py and lock_helpers.py are shallowly embedded below:
pure functions become Lean functions, the mutation of a bound context and of
the client event buffer becomes explicit state passing, and every source of
randomness (uuid4, secrets.token_hex) becomes an explicit argument standing
for the generated value.  Python semantics that the source leans on
(truthiness, dict lookup with lowercased keys, int(x, 16), json.dumps and
json.loads, urlsafe base64 without padding) are modelled explicitly.
-/

-- Section 1: Python string primitives, modelled on lists of characters.

-- Whitespace stripped by str.strip() (ASCII subset; the Python function also
-- strips other Unicode whitespace, which never occurs in these headers).
def pyIsSpace (c : Char) : Bool :=
  c = ' ' || c = '\t' || c = '\n' || c = '\r' || c = '\x0b' || c = '\x0c'

def pyStripChars (cs : List Char) : List Char :=
  ((cs.dropWhile pyIsSpace).reverse.dropWhile pyIsSpace).reverse

def pyStrip (s : String) : String :=
  String.mk (pyStripChars s.data)

-- ASCII lower-casing, as str.lower() acts on the header names and hex digits
-- that reach it here.
def pyLowerChar (c : Char) : Char :=
  if 'A' ≤ c && c ≤ 'Z' then Char.ofNat (c.toNat + 32) else c

def pyLower (s : String) : String :=
  String.mk (s.data.map pyLowerChar)

-- value.split("-"): Python keeps empty segments.
def splitDashAux : List Char → List Char → List (List Char)
  | acc, [] => [acc.reverse]
  | acc, c :: rest =>
      if c = '-' then acc.reverse :: splitDashAux [] rest
      else splitDashAux (c :: acc) rest

def pySplitDash (s : String) : List String :=
  (splitDashAux [] s.data).map String.mk

-- value[a:b] for characters (the slices used here have a ≤ b).
def pySlice (s : String) (a b : Nat) : String :=
  String.mk ((s.data.take b).drop a)

-- value.ljust(n, '0')
def pyLJustZero (cs : List Char) (n : Nat) : List Char :=
  cs ++ List.replicate (n - cs.length) '0'

def strStartsWith (s pre : String) : Bool :=
  s.data.take pre.data.length == pre.data

def strDrop (s : String) (n : Nat) : String :=
  String.mk (s.data.drop n)

-- Section 2: success of Python's int(value, 16), used by _is_hex.
-- The accepted grammar is: optional whitespace, an optional sign, an optional
-- 0x / 0X marker (itself optionally followed by one underscore), then hex
-- digits separated by at most one underscore at a time, then optional
-- whitespace.

def isHexDigitChar (c : Char) : Bool :=
  ('0' ≤ c && c ≤ '9') || ('a' ≤ c && c ≤ 'f') || ('A' ≤ c && c ≤ 'F')

def hexTail : List Char → Bool
  | [] => true
  | '_' :: c :: rest => isHexDigitChar c && hexTail rest
  | '_' :: [] => false
  | c :: rest => isHexDigitChar c && hexTail rest

def hexBody : List Char → Bool
  | [] => false
  | c :: rest => isHexDigitChar c && hexTail rest

def hexAfterSign : List Char → Bool
  | '0' :: x :: rest =>
      if x = 'x' || x = 'X' then
        match rest with
        | '_' :: rest2 => hexBody rest2
        | _ => hexBody rest
      else hexBody ('0' :: x :: rest)
  | cs => hexBody cs

def pyIntHexOk (cs : List Char) : Bool :=
  match pyStripChars cs with
  | '+' :: rest => hexAfterSign rest
  | '-' :: rest => hexAfterSign rest
  | rest => hexAfterSign rest

-- trace_context._is_hex: length check plus int(value, 16).
def _is_hex (value : String) (expected_length : Nat) : Bool :=
  value.data.length == expected_length && pyIntHexOk value.data

-- Section 3: UTF-8, as str.encode("utf-8") / bytes.decode("utf-8").

def utf8EncodeChar (c : Char) : List Nat :=
  let n := c.toNat
  if n < 0x80 then [n]
  else if n < 0x800 then [0xc0 + n / 64, 0x80 + n % 64]
  else if n < 0x10000 then [0xe0 + n / 4096, 0x80 + n / 64 % 64, 0x80 + n % 64]
  else [0xf0 + n / 262144, 0x80 + n / 4096 % 64, 0x80 + n / 64 % 64, 0x80 + n % 64]

def utf8Encode : List Char → List Nat
  | [] => []
  | c :: rest => utf8EncodeChar c ++ utf8Encode rest

def utf8Cont (b : Nat) : Bool := 0x80 ≤ b && b ≤ 0xbf

-- Strict UTF-8 decoding (rejects overlong forms, surrogates and values above
-- U+10FFFF, as Python's strict codec does).  Recursion is fuelled by the
-- byte count.
def utf8DecodeAux : Nat → List Nat → Option (List Char)
  | _, [] => some []
  | 0, _ :: _ => none
  | fuel + 1, b :: rest =>
    if b < 0x80 then
      (utf8DecodeAux fuel rest).map (Char.ofNat b :: ·)
    else if 0xc2 ≤ b && b ≤ 0xdf then
      match rest with
      | b2 :: r =>
        if utf8Cont b2 then
          (utf8DecodeAux fuel r).map (Char.ofNat ((b - 0xc0) * 64 + (b2 - 0x80)) :: ·)
        else none
      | _ => none
    else if 0xe0 ≤ b && b ≤ 0xef then
      match rest with
      | b2 :: b3 :: r =>
        let lo2 : Nat := if b = 0xe0 then 0xa0 else 0x80
        let hi2 : Nat := if b = 0xed then 0x9f else 0xbf
        if (lo2 ≤ b2 && b2 ≤ hi2) && utf8Cont b3 then
          (utf8DecodeAux fuel r).map
            (Char.ofNat ((b - 0xe0) * 4096 + (b2 - 0x80) * 64 + (b3 - 0x80)) :: ·)
        else none
      | _ => none
    else if 0xf0 ≤ b && b ≤ 0xf4 then
      match rest with
      | b2 :: b3 :: b4 :: r =>
        let lo2 : Nat := if b = 0xf0 then 0x90 else 0x80
        let hi2 : Nat := if b = 0xf4 then 0x8f else 0xbf
        if (lo2 ≤ b2 && b2 ≤ hi2) && utf8Cont b3 && utf8Cont b4 then
          (utf8DecodeAux fuel r).map
            (Char.ofNat ((b - 0xf0) * 262144 + (b2 - 0x80) * 4096 + (b3 - 0x80) * 64 + (b4 - 0x80)) :: ·)
        else none
      | _ => none
    else none

def utf8Decode (bs : List Nat) : Option (List Char) :=
  utf8DecodeAux bs.length bs

-- Section 4: base64url without padding.
-- _encode_base64url composes urlsafe_b64encode with rstrip("="); together
-- they are exactly the unpadded group encoding below.  _decode_base64url
-- re-adds padding and calls urlsafe_b64decode; on inputs over the url-safe
-- alphabet that composition is the unpadded group decoding below (a single
-- leftover character makes the padded string invalid).  Python additionally
-- discards characters outside the alphabet before decoding; such inputs end
-- up undecodable as JSON in every case relevant here, so the model treats
-- them as decode failures directly.

def b64UrlChar (n : Nat) : Char :=
  if n < 26 then Char.ofNat (65 + n)
  else if n < 52 then Char.ofNat (97 + (n - 26))
  else if n < 62 then Char.ofNat (48 + (n - 52))
  else if n = 62 then '-' else '_'

def b64UrlIndex (c : Char) : Option Nat :=
  if 'A' ≤ c && c ≤ 'Z' then some (c.toNat - 65)
  else if 'a' ≤ c && c ≤ 'z' then some (c.toNat - 97 + 26)
  else if '0' ≤ c && c ≤ '9' then some (c.toNat - 48 + 52)
  else if c = '-' then some 62
  else if c = '_' then some 63
  else none

def b64UrlEncodeBytes : List Nat → List Char
  | a :: b :: c :: rest =>
      b64UrlChar (a / 4) :: b64UrlChar (a % 4 * 16 + b / 16) ::
      b64UrlChar (b % 16 * 4 + c / 64) :: b64UrlChar (c % 64) ::
      b64UrlEncodeBytes rest
  | [a, b] => [b64UrlChar (a / 4), b64UrlChar (a % 4 * 16 + b / 16), b64UrlChar (b % 16 * 4)]
  | [a] => [b64UrlChar (a / 4), b64UrlChar (a % 4 * 16)]
  | [] => []

def b64UrlDecodeChars : List Char → Option (List Nat)
  | c1 :: c2 :: c3 :: c4 :: rest => do
      let v1 ← b64UrlIndex c1
      let v2 ← b64UrlIndex c2
      let v3 ← b64UrlIndex c3
      let v4 ← b64UrlIndex c4
      let tl ← b64UrlDecodeChars rest
      pure ((v1 * 4 + v2 / 16) :: (v2 % 16 * 16 + v3 / 4) :: (v3 % 4 * 64 + v4) :: tl)
  | [c1, c2, c3] => do
      let v1 ← b64UrlIndex c1
      let v2 ← b64UrlIndex c2
      let v3 ← b64UrlIndex c3
      pure [v1 * 4 + v2 / 16, v2 % 16 * 16 + v3 / 4]
  | [c1, c2] => do
      let v1 ← b64UrlIndex c1
      let v2 ← b64UrlIndex c2
      pure [v1 * 4 + v2 / 16]
  | [_] => none
  | [] => some []

-- trace_context._encode_base64url
def _encode_base64url (value : String) : String :=
  String.mk (b64UrlEncodeBytes (utf8Encode value.data))

-- trace_context._decode_base64url
def _decode_base64url (value : String) : Option String :=
  (b64UrlDecodeChars value.data).bind fun bs => (utf8Decode bs).map String.mk

-- Section 5: JSON values, as produced by json.loads.  Arrays and objects are
-- mutual inductives rather than List-nested ones so that every function on
-- them is plain structural recursion.  Python floats are not modelled: the
-- SDK never emits them and a clock payload containing one is treated as
-- undecodable (json.loads would accept it; no verified claim depends on such
-- payloads).  Python bools are separate from ints, as in Python, and the
-- places where bool counts as int (isinstance checks) say so explicitly.

mutual

inductive Json where
  | null : Json
  | bool (b : Bool) : Json
  | int (n : Int) : Json
  | str (s : String) : Json
  | arr (xs : JsonArr) : Json
  | obj (kvs : JsonObj) : Json

inductive JsonArr where
  | nil : JsonArr
  | cons (hd : Json) (tl : JsonArr) : JsonArr

inductive JsonObj where
  | nil : JsonObj
  | cons (k : String) (v : Json) (tl : JsonObj) : JsonObj

end

def JsonArr.toList : JsonArr → List Json
  | .nil => []
  | .cons h t => h :: JsonArr.toList t

def JsonArr.ofList : List Json → JsonArr
  | [] => .nil
  | h :: t => .cons h (JsonArr.ofList t)

def JsonObj.isEmpty : JsonObj → Bool
  | .nil => true
  | .cons _ _ _ => false

-- Python dict lookup on the dict json.loads builds: a later duplicate key
-- overwrites an earlier one, so lookup returns the last binding.
def JsonObj.get : JsonObj → String → Option Json
  | .nil, _ => none
  | .cons k1 v1 tl, k =>
      match JsonObj.get tl k with
      | some v => some v
      | none => if k1 == k then some v1 else none

-- Python truthiness of a decoded JSON value.
def jsonTruthy : Json → Bool
  | .null => false
  | .bool b => b
  | .int n => !(n == 0)
  | .str s => !(s == "")
  | .arr .nil => false
  | .arr (.cons _ _) => true
  | .obj kvs => !kvs.isEmpty

-- Section 6: json.dumps(payload, separators=(",", ":")) with the default
-- ensure_ascii, restricted to the value grammar above.

def hexLowerDigit (n : Nat) : Char :=
  if n < 10 then Char.ofNat (48 + n) else Char.ofNat (97 + (n - 10))

def u4Hex (n : Nat) : List Char :=
  ['\\', 'u', hexLowerDigit (n / 4096 % 16), hexLowerDigit (n / 256 % 16),
   hexLowerDigit (n / 16 % 16), hexLowerDigit (n % 16)]

def pyJsonEscapeChar (c : Char) : List Char :=
  if c = '"' then ['\\', '"']
  else if c = '\\' then ['\\', '\\']
  else if c = '\n' then ['\\', 'n']
  else if c = '\r' then ['\\', 'r']
  else if c = '\t' then ['\\', 't']
  else if c = '\x08' then ['\\', 'b']
  else if c = '\x0c' then ['\\', 'f']
  else if c.toNat < 0x20 || 0x7f ≤ c.toNat then
    if c.toNat < 0x10000 then u4Hex c.toNat
    else u4Hex (0xd800 + (c.toNat - 0x10000) / 1024) ++ u4Hex (0xdc00 + (c.toNat - 0x10000) % 1024)
  else [c]

def pyJsonEscape : List Char → List Char
  | [] => []
  | c :: rest => pyJsonEscapeChar c ++ pyJsonEscape rest

def dumpJsonStr (s : String) : List Char :=
  '"' :: pyJsonEscape s.data ++ ['"']

def natDecAux : Nat → Nat → List Char
  | 0, _ => []
  | fuel + 1, n =>
      if n < 10 then [Char.ofNat (48 + n)]
      else natDecAux fuel (n / 10) ++ [Char.ofNat (48 + n % 10)]

def natDec (n : Nat) : List Char := natDecAux (n + 1) n

def intDec : Int → List Char
  | .ofNat n => natDec n
  | .negSucc n => '-' :: natDec (n + 1)

mutual

def dumpJson : Json → List Char
  | .null => "null".data
  | .bool true => "true".data
  | .bool false => "false".data
  | .int n => intDec n
  | .str s => dumpJsonStr s
  | .arr xs => '[' :: dumpJsonArr xs ++ [']']
  | .obj kvs => '\x7b' :: dumpJsonObj kvs ++ ['\x7d']

def dumpJsonArr : JsonArr → List Char
  | .nil => []
  | .cons h .nil => dumpJson h
  | .cons h (.cons h2 t) => dumpJson h ++ ',' :: dumpJsonArr (.cons h2 t)

def dumpJsonObj : JsonObj → List Char
  | .nil => []
  | .cons k v .nil => dumpJsonStr k ++ ':' :: dumpJson v
  | .cons k v (.cons k2 v2 t) =>
      dumpJsonStr k ++ ':' :: dumpJson v ++ ',' :: dumpJsonObj (.cons k2 v2 t)

end

def json_dumps_compact (j : Json) : String := String.mk (dumpJson j)

-- Section 7: json.loads, restricted to the grammar above.  Divergences from
-- Python, none of which a verified claim depends on: numbers with a fraction
-- or exponent, NaN/Infinity, and escaped lone surrogates are rejected here
-- while Python accepts them.

def jsonWs (c : Char) : Bool :=
  c = ' ' || c = '\t' || c = '\n' || c = '\r'

def skipJsonWs (cs : List Char) : List Char :=
  cs.dropWhile jsonWs

def jsonHexVal (c : Char) : Option Nat :=
  let n := c.toNat
  if 97 ≤ n && n ≤ 102 then some (n - 87)
  else if 65 ≤ n && n ≤ 70 then some (n - 55)
  else if 48 ≤ n && n ≤ 57 then some (n - 48)
  else none

def jsonHex4 : List Char → Option (Nat × List Char)
  | c1 :: c2 :: c3 :: c4 :: rest =>
      match jsonHexVal c1, jsonHexVal c2, jsonHexVal c3, jsonHexVal c4 with
      | some v1, some v2, some v3, some v4 =>
          some (v1 * 4096 + v2 * 256 + v3 * 16 + v4, rest)
      | _, _, _, _ => none
  | _ => none

-- String bodies, after the opening quote; returns the decoded characters and
-- the input after the closing quote.
def parseJsonStrBody : Nat → List Char → Option (List Char × List Char)
  | _, [] => none
  | 0, _ :: _ => none
  | fuel + 1, c :: rest =>
    if c = '"' then some ([], rest)
    else if c = '\\' then
      match rest with
      | [] => none
      | e :: rest2 =>
        if e = '"' || e = '\\' || e = '/' then
          (parseJsonStrBody fuel rest2).map fun p => (e :: p.1, p.2)
        else if e = 'b' then
          (parseJsonStrBody fuel rest2).map fun p => ('\x08' :: p.1, p.2)
        else if e = 'f' then
          (parseJsonStrBody fuel rest2).map fun p => ('\x0c' :: p.1, p.2)
        else if e = 'n' then
          (parseJsonStrBody fuel rest2).map fun p => ('\n' :: p.1, p.2)
        else if e = 'r' then
          (parseJsonStrBody fuel rest2).map fun p => ('\r' :: p.1, p.2)
        else if e = 't' then
          (parseJsonStrBody fuel rest2).map fun p => ('\t' :: p.1, p.2)
        else if e = 'u' then do
          let (n, rest3) ← jsonHex4 rest2
          if n < 0xd800 || 0xe000 ≤ n then
            (parseJsonStrBody fuel rest3).map fun p => (Char.ofNat n :: p.1, p.2)
          else if n < 0xdc00 then
            match rest3 with
            | '\\' :: 'u' :: rest4 => do
                let (m, rest5) ← jsonHex4 rest4
                if 0xdc00 ≤ m && m < 0xe000 then
                  (parseJsonStrBody fuel rest5).map fun p =>
                    (Char.ofNat (0x10000 + (n - 0xd800) * 1024 + (m - 0xdc00)) :: p.1, p.2)
                else none
            | _ => none
          else none
        else none
    else if c.toNat < 0x20 then none
    else (parseJsonStrBody fuel rest).map fun p => (c :: p.1, p.2)

def jsonDigitsVal : List Char → Nat → Nat × List Char
  | c :: rest, acc =>
      if '0' ≤ c && c ≤ '9' then jsonDigitsVal rest (acc * 10 + (c.toNat - 48))
      else (acc, c :: rest)
  | [], acc => (acc, [])

-- An integer literal: optional minus, digits with no leading zero, not
-- followed by a fraction or exponent.
def parseJsonInt (cs : List Char) : Option (Int × List Char) :=
  let core : List Char → Option (Nat × List Char) := fun ds =>
    match ds with
    | [] => none
    | d :: rest =>
      if d = '0' then
        match rest with
        | r :: _ => if '0' ≤ r && r ≤ '9' then none else some (0, rest)
        | [] => some (0, [])
      else if '0' ≤ d && d ≤ '9' then some (jsonDigitsVal rest (d.toNat - 48))
      else none
  match cs with
  | '-' :: rest =>
      (core rest).bind fun p =>
        match p.2 with
        | c :: _ => if c = '.' || c = 'e' || c = 'E' then none else some (-(p.1 : Int), p.2)
        | [] => some (-(p.1 : Int), [])
  | _ =>
      (core cs).bind fun p =>
        match p.2 with
        | c :: _ => if c = '.' || c = 'e' || c = 'E' then none else some ((p.1 : Int), p.2)
        | [] => some ((p.1 : Int), [])

def stripKeyword (kw : String) (cs : List Char) : Option (List Char) :=
  if cs.take kw.data.length == kw.data then some (cs.drop kw.data.length) else none

mutual

def parseJsonValue : Nat → List Char → Option (Json × List Char)
  | 0, _ => none
  | fuel + 1, cs =>
    match skipJsonWs cs with
    | [] => none
    | c :: rest =>
      if c = '\x7b' then
        match skipJsonWs rest with
        | '\x7d' :: rest2 => some (.obj .nil, rest2)
        | rest2 => (parseJsonMembers fuel rest2).map fun p => (.obj p.1, p.2)
      else if c = '[' then
        match skipJsonWs rest with
        | ']' :: rest2 => some (.arr .nil, rest2)
        | rest2 => (parseJsonItems fuel rest2).map fun p => (.arr p.1, p.2)
      else if c = '"' then
        (parseJsonStrBody (rest.length + 1) rest).map fun p => (.str (String.mk p.1), p.2)
      else
        match stripKeyword "true" (c :: rest) with
        | some rest2 => some (.bool true, rest2)
        | none =>
          match stripKeyword "false" (c :: rest) with
          | some rest2 => some (.bool false, rest2)
          | none =>
            match stripKeyword "null" (c :: rest) with
            | some rest2 => some (.null, rest2)
            | none => (parseJsonInt (c :: rest)).map fun p => (.int p.1, p.2)

-- Array items, after at least one item is known to follow.
def parseJsonItems : Nat → List Char → Option (JsonArr × List Char)
  | 0, _ => none
  | fuel + 1, cs => do
    let (v, rest) ← parseJsonValue fuel cs
    match skipJsonWs rest with
    | ',' :: rest2 => (parseJsonItems fuel rest2).map fun p => (.cons v p.1, p.2)
    | ']' :: rest2 => some (.cons v .nil, rest2)
    | _ => none

-- Object members, after at least one member is known to follow.
def parseJsonMembers : Nat → List Char → Option (JsonObj × List Char)
  | 0, _ => none
  | fuel + 1, cs =>
    match skipJsonWs cs with
    | '"' :: rest => do
      let (k, rest2) ← parseJsonStrBody (rest.length + 1) rest
      match skipJsonWs rest2 with
      | ':' :: rest3 => do
        let (v, rest4) ← parseJsonValue fuel rest3
        match skipJsonWs rest4 with
        | ',' :: rest5 =>
            (parseJsonMembers fuel rest5).map fun p => (.cons (String.mk k) v p.1, p.2)
        | '\x7d' :: rest5 => some (.cons (String.mk k) v .nil, rest5)
        | _ => none
      | _ => none
    | _ => none

end

def json_loads (s : String) : Option Json :=
  match parseJsonValue (s.data.length + 1) s.data with
  | some (j, rest) => if skipJsonWs rest == [] then some j else none
  | none => none

-- Section 8: trace_context.py.

def TRACEPARENT_HEADER : String := "traceparent"

def TRACESTATE_HEADER : String := "tracestate"

def RACEWAY_CLOCK_HEADER : String := "raceway-clock"

def TRACEPARENT_VERSION : String := "00"

def TRACE_FLAGS : String := "01"

-- Source name: CLOCK_VERSION_PREFIX.
def CLOCK_VERSION_TAG : String := "v1;"

-- Exceptions that parse_incoming_headers can let escape (they are raised by
-- attribute access or iteration on an unexpected payload type and are not in
-- the except clause of _parse_raceway_clock).
inductive PyErr where
  | attributeError : PyErr
  | typeError : PyErr
deriving DecidableEq, Repr

-- The dynamic typing of the source shows in trace_id / parent_span_id: the
-- raceway-clock branch can adopt any decoded JSON value into them, so they
-- range over Json here; a Python str value is Json.str.
structure ParsedTraceContext where
  trace_id : Json
  span_id : String
  parent_span_id : Json
  tracestate : Option String
  clock_vector : List (String × Int)
  distributed : Bool

structure PropagationHeaders where
  headers : List (String × String)
  clock_vector : List (String × Int)
  child_span_id : String

-- The dict returned by _parse_traceparent.
structure TraceparentData where
  trace_id : String
  span_id : String

-- The dict returned by _parse_raceway_clock.
structure ParsedClock where
  trace_id : Json
  parent_span_id : Json
  clock : List (String × Int)

def _clock_component (service_name instance_id : String) : String :=
  service_name ++ "#" ++ instance_id

def _uuid_to_traceparent (value : String) : String :=
  String.mk ((pyLJustZero (value.data.filter fun c => !(c = '-')) 32).take 32)

def _traceparent_to_uuid (value : String) : String :=
  pySlice value 0 8 ++ "-" ++ pySlice value 8 12 ++ "-" ++ pySlice value 12 16 ++
    "-" ++ pySlice value 16 20 ++ "-" ++ pySlice value 20 32

def _parse_traceparent (value : String) : Option TraceparentData :=
  match pySplitDash (pyStrip value) with
  | [_, trace_id_hex, span_id_hex, _] =>
      if !_is_hex trace_id_hex 32 || !_is_hex span_id_hex 16 then none
      else some ⟨_traceparent_to_uuid trace_id_hex, pyLower span_id_hex⟩
  | _ => none

-- The filter inside the payload loop: an entry is kept when it is a
-- two-element list whose head is a str and whose second element is an int
-- (Python bools pass the isinstance int check; floats are not modelled).
def entriesFromArr : JsonArr → List (String × Int)
  | .nil => []
  | .cons item tl =>
      match item with
      | .arr (.cons (.str s) (.cons (.int n) .nil)) => (s, n) :: entriesFromArr tl
      | .arr (.cons (.str s) (.cons (.bool b) .nil)) =>
          (s, if b then 1 else 0) :: entriesFromArr tl
      | _ => entriesFromArr tl

-- Iterating payload.get("clock", []): a list yields its items, a str or a
-- dict yields values that never pass the filter, anything else raises
-- TypeError.
def clockEntriesOf : Json → Except PyErr (List (String × Int))
  | .arr xs => .ok (entriesFromArr xs)
  | .str _ => .ok []
  | .obj _ => .ok []
  | _ => .error .typeError

def _parse_raceway_clock (value : String) : Except PyErr (Option ParsedClock) :=
  if !strStartsWith value CLOCK_VERSION_TAG then .ok none
  else
    match (_decode_base64url (strDrop value CLOCK_VERSION_TAG.data.length)).bind json_loads with
    | none => .ok none
    | some (.obj kvs) =>
        (clockEntriesOf ((kvs.get "clock").getD (.arr .nil))).map fun entries =>
          some ⟨(kvs.get "trace_id").getD .null, (kvs.get "span_id").getD .null, entries⟩
    | some _ => .error .attributeError

def incrementLoop (component : String) : List (String × Int) → List (String × Int) × Bool
  | [] => ([], false)
  | (k, v) :: rest =>
      let (updated, found) := incrementLoop component rest
      if k == component then ((k, v + 1) :: updated, true)
      else ((k, v) :: updated, found)

def increment_clock_vector (clock_vector : List (String × Int))
    (service_name instance_id : String) : List (String × Int) :=
  let component := _clock_component service_name instance_id
  let (updated, found) := incrementLoop component clock_vector
  if found then updated else updated ++ [(component, 1)]

-- Building lower_headers = {k.lower(): v for k, v in headers.items()} and
-- then .get(name): the dict keeps the last pair for each lowercased key.
def headerGet (headers : List (String × String)) (name : String) : Option String :=
  (headers.reverse.find? fun kv => pyLower kv.1 == name).map Prod.snd

def optStrTruthy : Option String → Bool
  | some s => !(s == "")
  | none => false

-- Lines 74-76 of trace_context.py, factored out so the preservation lemmas
-- below can speak about this step on its own.
def ensure_own_component (clock_vector : List (String × Int)) (component_id : String) :
    List (String × Int) :=
  if clock_vector.any fun kv => kv.1 == component_id then clock_vector
  else clock_vector ++ [(component_id, 0)]

-- Lines 52-61 of trace_context.py: trace_id / parent_span_id / distributed
-- after the traceparent branch (trace_id starts as the fresh uuid,
-- parent_span_id as None, distributed as False).
def traceparentState (traceparent_raw : Option String) (fresh_trace_id : String) :
    Json × Json × Bool :=
  if optStrTruthy traceparent_raw then
    match _parse_traceparent (traceparent_raw.getD "") with
    | some parsed => (Json.str parsed.trace_id, Json.str parsed.span_id, true)
    | none => (Json.str fresh_trace_id, Json.null, false)
  else (Json.str fresh_trace_id, Json.null, false)

-- parse_incoming_headers.  fresh_trace_id stands for str(uuid.uuid4()) and
-- fresh_span_id for _generate_span_id().
def parse_incoming_headers (headers : List (String × String))
    (service_name instance_id : String)
    (fresh_trace_id fresh_span_id : String) : Except PyErr ParsedTraceContext := do
  let traceparent_raw := headerGet headers TRACEPARENT_HEADER
  let tracestate_raw := headerGet headers TRACESTATE_HEADER
  let raceway_clock_raw := headerGet headers RACEWAY_CLOCK_HEADER
  let st0 : Json × Json × Bool := traceparentState traceparent_raw fresh_trace_id
  let step ←
    if optStrTruthy raceway_clock_raw then do
      let parsed_clock ← _parse_raceway_clock (raceway_clock_raw.getD "")
      match parsed_clock with
      | some pc =>
          let trace1 := if jsonTruthy pc.trace_id then pc.trace_id else st0.1
          let parent1 :=
            if !jsonTruthy st0.2.1 && jsonTruthy pc.parent_span_id then pc.parent_span_id
            else st0.2.1
          pure (pc.clock, trace1, parent1, true)
      | none => pure (([] : List (String × Int)), st0)
    else pure (([] : List (String × Int)), st0)
  let component_id := _clock_component service_name instance_id
  pure ⟨step.2.1, fresh_span_id, step.2.2.1, tracestate_raw,
        ensure_own_component step.1 component_id, step.2.2.2⟩

-- The payload dict literal of build_propagation_headers.
def clockToJsonArr : List (String × Int) → JsonArr
  | [] => .nil
  | (k, v) :: rest => .cons (.arr (.cons (.str k) (.cons (.int v) .nil))) (clockToJsonArr rest)

def propagation_payload (trace_id child_span_id current_span_id service_name instance_id :
    String) (clock : List (String × Int)) : Json :=
  .obj (.cons "trace_id" (.str trace_id)
    (.cons "span_id" (.str child_span_id)
      (.cons "parent_span_id" (.str current_span_id)
        (.cons "service" (.str service_name)
          (.cons "instance" (.str instance_id)
            (.cons "clock" (.arr (clockToJsonArr clock)) .nil))))))

-- build_propagation_headers.  child_span_id stands for _generate_span_id().
def build_propagation_headers (trace_id current_span_id : String)
    (tracestate : Option String) (clock_vector : List (String × Int))
    (service_name instance_id : String) (child_span_id : String) : PropagationHeaders :=
  let next_clock_vector := increment_clock_vector clock_vector service_name instance_id
  let traceparent :=
    TRACEPARENT_VERSION ++ "-" ++ _uuid_to_traceparent trace_id ++ "-" ++ child_span_id ++
      "-" ++ TRACE_FLAGS
  let raceway_clock :=
    CLOCK_VERSION_TAG ++ _encode_base64url (json_dumps_compact
      (propagation_payload trace_id child_span_id current_span_id service_name instance_id
        next_clock_vector))
  let headers := [(TRACEPARENT_HEADER, traceparent), (RACEWAY_CLOCK_HEADER, raceway_clock)]
  let headers :=
    match tracestate with
    | some ts => if !(ts == "") then headers ++ [(TRACESTATE_HEADER, ts)] else headers
    | none => headers
  ⟨headers, next_clock_vector, child_span_id⟩

-- Section 9: context.py.

structure RacewayContext where
  trace_id : String
  execution_id : String
  parent_id : Option String
  root_id : Option String
  clock : Nat
  span_id : String
  parent_span_id : Option String
  distributed : Bool
  clock_vector : List (String × Int)
  tracestate : Option String

-- create_context.  fresh_trace_id stands for str(uuid.uuid4()),
-- fresh_execution_id for the python-pid-uuid string, fresh_span_id for
-- uuid.uuid4().hex[:16].  Note that span_id is adopted through Python's
-- "or", i.e. by truthiness, while trace_id is compared against None only.
def create_context (trace_id span_id parent_span_id : Option String)
    (distributed : Bool) (clock_vector : Option (List (String × Int)))
    (tracestate : Option String)
    (fresh_trace_id fresh_execution_id fresh_span_id : String) : RacewayContext :=
  { trace_id := trace_id.getD fresh_trace_id
    execution_id := fresh_execution_id
    parent_id := none
    root_id := none
    clock := 0
    span_id :=
      match span_id with
      | some s => if !(s == "") then s else fresh_span_id
      | none => fresh_span_id
    parent_span_id := parent_span_id
    distributed := distributed
    clock_vector := clock_vector.getD []
    tracestate := tracestate }

-- update_context, on a present context (the callers below only invoke it
-- after checking that a context is bound, which is also when the source
-- reaches it).
def update_context (ctx : RacewayContext) (event_id : String)
    (is_first_event : Bool) : RacewayContext :=
  let root_id := if is_first_event && ctx.root_id == none then some event_id else ctx.root_id
  { ctx with root_id := root_id, parent_id := some event_id, clock := ctx.clock + 1 }

-- Section 10: client.py.  Events carry the fields the claims speak about;
-- timestamp (wall clock) and metadata (process/hostname introspection) are
-- not modelled.  RacewayClient carries the configuration fields these
-- operations read.

inductive EventKind where
  | StateChange (var : String) (old_value new_value : Json) (location : String)
      (access_type : String)
  | FunctionCall (function_name module : String) (args : Json) (file : String) (line : Nat)
  | HttpRequest (method url : String) (headers : List (String × String)) (body : Json)
  | HttpResponse (status : Nat) (headers : List (String × String)) (body : Json)
      (duration_ms : Nat)
  | LockAcquire (lock_id lock_type location : String)
  | LockRelease (lock_id lock_type location : String)

structure Event where
  id : String
  trace_id : String
  parent_id : Option String
  kind : EventKind
  causality_vector : List (String × Int)
  lock_set : List String

structure RacewayClient where
  service_name : String
  instance_id : String
  batch_size : Nat

structure ClientState where
  event_buffer : List Event

-- _capture_event: increments the context clock vector, builds the event with
-- parent_id = ctx.parent_id, appends it to the buffer, and reports whether
-- the batch-size flush was started.  fresh_event_id stands for
-- str(uuid.uuid4()).
def _capture_event (client : RacewayClient) (st : ClientState) (ctx : RacewayContext)
    (kind : EventKind) (fresh_event_id : String) :
    RacewayContext × Event × ClientState × Bool :=
  let cv := increment_clock_vector ctx.clock_vector client.service_name client.instance_id
  let ctx2 := { ctx with clock_vector := cv }
  let event : Event :=
    { id := fresh_event_id
      trace_id := ctx2.trace_id
      parent_id := ctx2.parent_id
      kind := kind
      causality_vector := cv
      lock_set := [] }
  let buffer := st.event_buffer ++ [event]
  (ctx2, event, ⟨buffer⟩, decide (client.batch_size ≤ buffer.length))

-- The six Tracker operations.  Each takes the result of get_context() as an
-- Option and returns the context var and buffer afterwards; location / file /
-- line stand for the stack introspection of the source.

def track_state_change (client : RacewayClient) (st : ClientState)
    (octx : Option RacewayContext) (var : String) (old_value new_value : Json)
    (access_type : String) (fresh_event_id location : String) :
    Option RacewayContext × ClientState :=
  match octx with
  | none => (none, st)
  | some ctx =>
      let is_first_event := ctx.root_id == none
      let (ctx2, event, st2, _) :=
        _capture_event client st ctx
          (.StateChange var old_value new_value location access_type) fresh_event_id
      (some (update_context ctx2 event.id is_first_event), st2)

def track_function_call (client : RacewayClient) (st : ClientState)
    (octx : Option RacewayContext) (function_name : String) (args : Json)
    (fresh_event_id file : String) (line : Nat) :
    Option RacewayContext × ClientState :=
  match octx with
  | none => (none, st)
  | some ctx =>
      let is_first_event := ctx.root_id == none
      let (ctx2, event, st2, _) :=
        _capture_event client st ctx
          (.FunctionCall function_name "app"
            (if jsonTruthy args then args else .obj .nil) file line) fresh_event_id
      (some (update_context ctx2 event.id is_first_event), st2)

def track_http_request (client : RacewayClient) (st : ClientState)
    (octx : Option RacewayContext) (method url : String)
    (headers : Option (List (String × String))) (body : Json)
    (fresh_event_id : String) : Option RacewayContext × ClientState :=
  match octx with
  | none => (none, st)
  | some ctx =>
      let is_first_event := ctx.root_id == none
      let (ctx2, event, st2, _) :=
        _capture_event client st ctx
          (.HttpRequest method url (headers.getD []) body) fresh_event_id
      (some (update_context ctx2 event.id is_first_event), st2)

-- track_http_response: the source passes is_first_event = False to
-- update_context (client.py line 226) and never snapshots root_id.
def track_http_response (client : RacewayClient) (st : ClientState)
    (octx : Option RacewayContext) (status : Nat)
    (headers : Option (List (String × String))) (body : Json) (duration_ms : Nat)
    (fresh_event_id : String) : Option RacewayContext × ClientState :=
  match octx with
  | none => (none, st)
  | some ctx =>
      let (ctx2, event, st2, _) :=
        _capture_event client st ctx
          (.HttpResponse status (headers.getD []) body duration_ms) fresh_event_id
      (some (update_context ctx2 event.id false), st2)

def track_lock_acquire (client : RacewayClient) (st : ClientState)
    (octx : Option RacewayContext) (lock_id lock_type : String)
    (fresh_event_id location : String) : Option RacewayContext × ClientState :=
  match octx with
  | none => (none, st)
  | some ctx =>
      let is_first_event := ctx.root_id == none
      let (ctx2, event, st2, _) :=
        _capture_event client st ctx
          (.LockAcquire lock_id lock_type location) fresh_event_id
      (some (update_context ctx2 event.id is_first_event), st2)

def track_lock_release (client : RacewayClient) (st : ClientState)
    (octx : Option RacewayContext) (lock_id lock_type : String)
    (fresh_event_id location : String) : Option RacewayContext × ClientState :=
  match octx with
  | none => (none, st)
  | some ctx =>
      let is_first_event := ctx.root_id == none
      let (ctx2, event, st2, _) :=
        _capture_event client st ctx
          (.LockRelease lock_id lock_type location) fresh_event_id
      (some (update_context ctx2 event.id is_first_event), st2)

-- Python dict insertion: d[k] = v keeps the position of an existing key and
-- appends a new one.
def pySetItem (d : List (String × String)) (k v : String) : List (String × String) :=
  if d.any fun kv => kv.1 == k then d.map fun kv => if kv.1 == k then (kv.1, v) else kv
  else d ++ [(k, v)]

def pyDictUpdate (d upd : List (String × String)) : List (String × String) :=
  upd.foldl (fun acc kv => pySetItem acc kv.1 kv.2) d

inductive SdkError where
  | runtimeError : SdkError
deriving DecidableEq, Repr

-- RacewayClient.propagation_headers.  Raises RuntimeError outside a bound
-- context; otherwise delegates to build_propagation_headers, stores the
-- incremented clock vector and the distributed mark back into the context
-- and, per the source comment, does NOT modify ctx.span_id.
def propagation_headers (client : RacewayClient) (octx : Option RacewayContext)
    (extra_headers : Option (List (String × String))) (child_span_id : String) :
    Except SdkError (RacewayContext × List (String × String)) :=
  match octx with
  | none => .error .runtimeError
  | some ctx =>
      let result := build_propagation_headers ctx.trace_id ctx.span_id ctx.tracestate
        ctx.clock_vector client.service_name client.instance_id child_span_id
      let ctx2 := { ctx with clock_vector := result.clock_vector, distributed := true }
      let headers := pyDictUpdate result.headers (extra_headers.getD [])
      .ok (ctx2, headers)

-- RacewayClient.request.  The RuntimeError from propagation_headers is
-- caught and replaced by an empty propagation dict; the outbound request is
-- then performed with merged_headers = the caller-supplied headers laid over
-- the propagation ones.  The function returns the context var afterwards and
-- the headers actually transmitted (the HTTP transfer itself is I/O).
def request (client : RacewayClient) (octx : Option RacewayContext)
    (headers : List (String × String)) (child_span_id : String) :
    Option RacewayContext × List (String × String) :=
  match propagation_headers client octx none child_span_id with
  | .error .runtimeError => (octx, pyDictUpdate (pyDictUpdate [] []) headers)
  | .ok (ctx2, propagation) => (some ctx2, pyDictUpdate (pyDictUpdate [] propagation) headers)

-- Section 11: lock_helpers.tracked_lock, as the trace of one full run of the
-- context manager around a body that either returns or raises.  The lock
-- object is abstracted by which attributes hasattr finds on it; the actions
-- list records the acquire/release operations performed on the lock itself.

structure LockObj where
  has_acquire : Bool
  has_release : Bool
  has_enter : Bool
  has_exit : Bool

inductive LockAction where
  | acquired : LockAction
  | released : LockAction
deriving DecidableEq, Repr

inductive LockOutcome where
  | ok : LockOutcome
  | bodyError (msg : String) : LockOutcome
  | runtimeError : LockOutcome
  | typeError : LockOutcome
deriving DecidableEq, Repr

structure TrackedLockResult where
  ctx : Option RacewayContext
  st : ClientState
  lock_actions : List LockAction
  outcome : LockOutcome

-- body = none models a body that completes; body = some msg a body that
-- raises.  eid_a / eid_r stand for the event ids generated inside the two
-- track calls, loc_a / loc_r for their captured locations.
def tracked_lock (client : RacewayClient) (st : ClientState)
    (octx : Option RacewayContext) (lock : LockObj) (lock_id lock_type : String)
    (body : Option String) (eid_a eid_r loc_a loc_r : String) : TrackedLockResult :=
  match octx with
  | none => ⟨none, st, [], .runtimeError⟩
  | some ctx =>
      if (lock.has_acquire && lock.has_release) || (lock.has_enter && lock.has_exit) then
        let (octx2, st2) := track_lock_acquire client st (some ctx) lock_id lock_type eid_a loc_a
        let (octx3, st3) := track_lock_release client st2 octx2 lock_id lock_type eid_r loc_r
        ⟨octx3, st3, [.acquired, .released],
          match body with
          | none => .ok
          | some msg => .bodyError msg⟩
      else ⟨some ctx, st, [], .typeError⟩

-- Section 12: a dispatcher over the six Tracker operations, used to state
-- the event-chain invariant over an arbitrary sequence of calls.

inductive TrackerCall where
  | state_change (var : String) (old_value new_value : Json) (access_type : String)
  | function_call (function_name : String) (args : Json) (file : String) (line : Nat)
  | http_request (method url : String) (headers : Option (List (String × String)))
      (body : Json)
  | http_response (status : Nat) (headers : Option (List (String × String))) (body : Json)
      (duration_ms : Nat)
  | lock_acquire (lock_id lock_type : String)
  | lock_release (lock_id lock_type : String)

def runTrackerCall (client : RacewayClient) (s : Option RacewayContext × ClientState)
    (c : TrackerCall) (fresh_event_id location : String) :
    Option RacewayContext × ClientState :=
  match c with
  | .state_change var o n a => track_state_change client s.2 s.1 var o n a fresh_event_id location
  | .function_call f a fl ln => track_function_call client s.2 s.1 f a fresh_event_id fl ln
  | .http_request m u h b => track_http_request client s.2 s.1 m u h b fresh_event_id
  | .http_response st h b d => track_http_response client s.2 s.1 st h b d fresh_event_id
  | .lock_acquire li lt => track_lock_acquire client s.2 s.1 li lt fresh_event_id location
  | .lock_release li lt => track_lock_release client s.2 s.1 li lt fresh_event_id location

def runTrackerCalls (client : RacewayClient) :
    Option RacewayContext × ClientState → List (TrackerCall × String × String) →
    Option RacewayContext × ClientState
  | s, [] => s
  | s, (c, eid, loc) :: rest => runTrackerCalls client (runTrackerCall client s c eid loc) rest

-- Section 13: predicates and fixtures used by the statements below.

-- At most one clock entry per component id.
def keysUnique : List (String × Int) → Bool
  | [] => true
  | (k, _) :: rest => !(rest.any fun kv => kv.1 == k) && keysUnique rest

def keysUniqueStr : List (String × String) → Bool
  | [] => true
  | (k, _) :: rest => !(rest.any fun kv => kv.1 == k) && keysUniqueStr rest

-- Events linked by parent_id starting from a given previous-event id.
def eventsChainFrom : Option String → List Event → Bool
  | _, [] => true
  | p, e :: rest => (e.parent_id == p) && eventsChainFrom (some e.id) rest

-- The event id of the first call in the list that is not track_http_response.
def firstNonResponseId : List (TrackerCall × String × String) → Option String
  | [] => none
  | (.http_response _ _ _ _, _, _) :: rest => firstNonResponseId rest
  | (_, eid, _) :: _ => some eid

def rootAfter (r : Option String) (cs : List (TrackerCall × String × String)) : Option String :=
  match r with
  | some x => some x
  | none => firstNonResponseId cs

def lastCallId (p : Option String) (cs : List (TrackerCall × String × String)) : Option String :=
  match cs.getLast? with
  | some t => some t.2.1
  | none => p

-- Written from the words of claim C5 (not from the source), for comparison
-- with _parse_traceparent: four dash-separated segments, each plain hex of
-- the traceparent segment lengths 2 / 32 / 16 / 2.
def plainHexStr (s : String) : Bool :=
  !(s.data == []) && s.data.all isHexDigitChar

def claim_valid_traceparent (value : String) : Bool :=
  match pySplitDash (pyStrip value) with
  | [a, b, c, d] =>
      (plainHexStr a && a.data.length == 2) && (plainHexStr b && b.data.length == 32) &&
        (plainHexStr c && c.data.length == 16) && (plainHexStr d && d.data.length == 2)
  | _ => false

-- Concrete fixtures.

def demoClient : RacewayClient := ⟨"svc-a", "a1", 50⟩

def smallBatchClient : RacewayClient := ⟨"svc-a", "a1", 2⟩

def freshCtx : RacewayContext :=
  create_context none none none false none none "trace-0" "python-1-aaaa" "aaaaaaaaaaaaaaaa"

-- The sender context of the round-trip scenario: service a, instance 1.
def rtTraceId : String := "0af76519-16cd-43dd-8448-eb211c80319c"

def rtSenderSpan : String := "b7ad6b7169203331"

def rtChildSpan : String := "00f067aa0ba902b7"

def rtEmit : PropagationHeaders :=
  build_propagation_headers rtTraceId rtSenderSpan none [("a#1", 0)] "a" "1" rtChildSpan

-- v1 header whose payload clock holds the component "a#1" twice
-- (clock [["a#1",1],["a#1",2]], trace_id "t-1", span_id "s1").
def dupClockHeaderValue : String :=
  "v1;eyJ0cmFjZV9pZCI6InQtMSIsInNwYW5faWQiOiJzMSIsImNsb2NrIjpbWyJhIzEiLDFdLFsiYSMxIiwyXV19"

-- v1 header whose payload carries trace_id "11111111-2222-3333-4444-555555555555",
-- span_id "00f067aa0ba902b7" and clock [["x#1",7]].
def otherTraceClockHeaderValue : String :=
  "v1;eyJ0cmFjZV9pZCI6IjExMTExMTExLTIyMjItMzMzMy00NDQ0LTU1NTU1NTU1NTU1NSIsInNwYW5faWQiOiIwMGYwNjdhYTBiYTkwMmI3IiwiY2xvY2siOltbIngjMSIsN11dfQ"

def validTraceparentValue : String := "00-0af7651916cd43dd8448eb211c80319c-b7ad6b7169203331-01"

def oddTraceparentValue : String := "zz-0af7651916cd43dd8448eb211c80319c-b7ad6b7169203331-qq"

def bufEvent (i : String) : Event :=
  { id := i, trace_id := "trace-0", parent_id := none,
    kind := .StateChange "x" .null .null "l" "Write", causality_vector := [], lock_set := [] }

-- The event kind and is_first_event flag that each Tracker operation feeds
-- into _capture_event / update_context (track_http_response passes False).
def callKind : TrackerCall → String → EventKind
  | .state_change v o n a, loc => .StateChange v o n loc a
  | .function_call f a fl ln, _ => .FunctionCall f "app" (if jsonTruthy a then a else .obj .nil) fl ln
  | .http_request m u h b, _ => .HttpRequest m u (h.getD []) b
  | .http_response s h b d, _ => .HttpResponse s (h.getD []) b d
  | .lock_acquire li lt, loc => .LockAcquire li lt loc
  | .lock_release li lt, loc => .LockRelease li lt loc

def callIsFirst : TrackerCall → Option String → Bool
  | .http_response _ _ _ _, _ => false
  | _, root_id => root_id == none

-- Section 14: helper lemmas.

def keysUniqueF : List String → Bool
  | [] => true
  | k :: rest => !(rest.any fun x => x == k) && keysUniqueF rest

theorem any_fst_eq (l : List (String × Int)) (k : String) :
    (l.any fun kv => kv.1 == k) = (l.map Prod.fst).any fun x => x == k := by
  induction l with
  | nil => rfl
  | cons h t ih => simp [List.any, ih]

theorem keysUnique_eq_fst (l : List (String × Int)) :
    keysUnique l = keysUniqueF (l.map Prod.fst) := by
  induction l with
  | nil => rfl
  | cons h t ih =>
      cases h with
      | mk k v => simp [keysUnique, keysUniqueF, ih, any_fst_eq]

theorem incrementLoop_fst (comp : String) (cv : List (String × Int)) :
    ((incrementLoop comp cv).1).map Prod.fst = cv.map Prod.fst := by
  induction cv with
  | nil => rfl
  | cons h t ih =>
      obtain ⟨k, v⟩ := h
      simp only [incrementLoop]
      split <;> simp [ih]

theorem incrementLoop_found (comp : String) (cv : List (String × Int)) :
    (incrementLoop comp cv).2 = cv.any fun kv => kv.1 == comp := by
  induction cv with
  | nil => rfl
  | cons h t ih =>
      obtain ⟨k, v⟩ := h
      simp only [incrementLoop, List.any_cons]
      split <;> simp_all

theorem keysUniqueF_append_one (ks : List String) (comp : String)
    (h1 : keysUniqueF ks = true) (h2 : (ks.any fun x => x == comp) = false) :
    keysUniqueF (ks ++ [comp]) = true := by
  induction ks with
  | nil => rfl
  | cons k t ih =>
      simp only [List.cons_append, keysUniqueF, List.append_eq, List.any_append, List.any_cons,
        List.any_nil, Bool.or_eq_false_iff, Bool.and_eq_true, Bool.not_eq_true',
        Bool.or_false] at h1 h2 ⊢
      have hck : (comp == k) = false := by
        have hkc := h2.1
        simp only [beq_eq_false_iff_ne] at hkc ⊢
        exact fun e => hkc e.symm
      exact ⟨⟨h1.1, hck⟩, ih h1.2 h2.2⟩

theorem increment_preserves_keysUnique (cv : List (String × Int)) (svc inst : String)
    (h : keysUnique cv = true) :
    keysUnique (increment_clock_vector cv svc inst) = true := by
  unfold increment_clock_vector
  cases hloop : incrementLoop (_clock_component svc inst) cv with
  | mk updated found =>
      have hfst : updated.map Prod.fst = cv.map Prod.fst := by
        have h2 := incrementLoop_fst (_clock_component svc inst) cv
        rw [hloop] at h2
        exact h2
      have hfound : found = (cv.any fun kv => kv.1 == _clock_component svc inst) := by
        have h2 := incrementLoop_found (_clock_component svc inst) cv
        rw [hloop] at h2
        exact h2
      simp only [hloop]
      cases hb : found with
      | true =>
          simp only [if_true]
          rw [keysUnique_eq_fst, hfst, ← keysUnique_eq_fst]
          exact h
      | false =>
          simp only [Bool.false_eq_true, if_false]
          rw [keysUnique_eq_fst, List.map_append, hfst]
          refine keysUniqueF_append_one _ _ (by rw [← keysUnique_eq_fst]; exact h) ?_
          rw [← any_fst_eq, ← hfound]
          exact hb

theorem ensure_preserves_keysUnique (cv : List (String × Int)) (comp : String)
    (h : keysUnique cv = true) :
    keysUnique (ensure_own_component cv comp) = true := by
  unfold ensure_own_component
  by_cases ha : (cv.any fun kv => kv.1 == comp) = true
  · rw [if_pos ha]
    exact h
  · rw [if_neg ha, keysUnique_eq_fst, List.map_append]
    refine keysUniqueF_append_one _ _ (by rw [← keysUnique_eq_fst]; exact h) ?_
    rw [← any_fst_eq]
    exact Bool.not_eq_true _ ▸ ha

theorem parse_eq_no_clock (hs : List (String × String)) (svc inst ft fs : String)
    (hrc : optStrTruthy (headerGet hs RACEWAY_CLOCK_HEADER) = false) :
    parse_incoming_headers hs svc inst ft fs =
      .ok ⟨(traceparentState (headerGet hs TRACEPARENT_HEADER) ft).1, fs,
        (traceparentState (headerGet hs TRACEPARENT_HEADER) ft).2.1,
        headerGet hs TRACESTATE_HEADER,
        ensure_own_component [] (_clock_component svc inst),
        (traceparentState (headerGet hs TRACEPARENT_HEADER) ft).2.2⟩ := by
  unfold parse_incoming_headers
  simp only [hrc, Bool.false_eq_true, if_false]
  rfl

theorem parse_eq_clock_none (hs : List (String × String)) (svc inst ft fs rc : String)
    (hrc : headerGet hs RACEWAY_CLOCK_HEADER = some rc) (hne : (rc == "") = false)
    (hpc : _parse_raceway_clock rc = .ok none) :
    parse_incoming_headers hs svc inst ft fs =
      .ok ⟨(traceparentState (headerGet hs TRACEPARENT_HEADER) ft).1, fs,
        (traceparentState (headerGet hs TRACEPARENT_HEADER) ft).2.1,
        headerGet hs TRACESTATE_HEADER,
        ensure_own_component [] (_clock_component svc inst),
        (traceparentState (headerGet hs TRACEPARENT_HEADER) ft).2.2⟩ := by
  unfold parse_incoming_headers
  simp only [hrc, optStrTruthy, hne, Option.getD_some, hpc, Bool.not_false, if_true]
  rfl

theorem parse_eq_clock_some (hs : List (String × String)) (svc inst ft fs rc : String)
    (pc : ParsedClock)
    (hrc : headerGet hs RACEWAY_CLOCK_HEADER = some rc) (hne : (rc == "") = false)
    (hpc : _parse_raceway_clock rc = .ok (some pc)) :
    parse_incoming_headers hs svc inst ft fs =
      .ok ⟨(if jsonTruthy pc.trace_id then pc.trace_id
              else (traceparentState (headerGet hs TRACEPARENT_HEADER) ft).1), fs,
        (if !jsonTruthy (traceparentState (headerGet hs TRACEPARENT_HEADER) ft).2.1 &&
              jsonTruthy pc.parent_span_id then pc.parent_span_id
          else (traceparentState (headerGet hs TRACEPARENT_HEADER) ft).2.1),
        headerGet hs TRACESTATE_HEADER,
        ensure_own_component pc.clock (_clock_component svc inst), true⟩ := by
  unfold parse_incoming_headers
  simp only [hrc, optStrTruthy, hne, Option.getD_some, hpc, Bool.not_false, if_true]
  rfl

theorem runTrackerCall_some (client : RacewayClient) (ctx : RacewayContext)
    (st : ClientState) (c : TrackerCall) (eid loc : String) :
    runTrackerCall client (some ctx, st) c eid loc =
      (some (update_context
          { ctx with clock_vector :=
              increment_clock_vector ctx.clock_vector client.service_name client.instance_id }
          eid (callIsFirst c ctx.root_id)),
        ⟨st.event_buffer ++
          [{ id := eid, trace_id := ctx.trace_id, parent_id := ctx.parent_id,
             kind := callKind c loc,
             causality_vector :=
               increment_clock_vector ctx.clock_vector client.service_name client.instance_id,
             lock_set := [] }]⟩) := by
  cases c <;> rfl

theorem lastCallId_cons (p : Option String) (x : TrackerCall × String × String)
    (tl : List (TrackerCall × String × String)) :
    lastCallId p (x :: tl) = lastCallId (some x.2.1) tl := by
  unfold lastCallId
  cases tl with
  | nil => rfl
  | cons y t => simp [List.getLast?]

theorem rootAfter_cons (c : TrackerCall) (eid loc : String)
    (tl : List (TrackerCall × String × String)) (r : Option String) :
    rootAfter r ((c, eid, loc) :: tl) =
      rootAfter (if callIsFirst c r && r == none then some eid else r) tl := by
  cases c <;> cases r <;> simp [rootAfter, callIsFirst, firstNonResponseId]

theorem lastCallId_nil (p : Option String) : lastCallId p [] = p := rfl

theorem rootAfter_nil (r : Option String) : rootAfter r [] = r := by
  cases r <;> rfl

theorem runTrackerCalls_spec (client : RacewayClient)
    (cs : List (TrackerCall × String × String)) :
    ∀ ctx st, ∃ ctx2 es,
      runTrackerCalls client (some ctx, st) cs = (some ctx2, ⟨st.event_buffer ++ es⟩) ∧
      eventsChainFrom ctx.parent_id es = true ∧
      es.map Event.id = cs.map (fun t => t.2.1) ∧
      ctx2.parent_id = lastCallId ctx.parent_id cs ∧
      ctx2.root_id = rootAfter ctx.root_id cs := by
  induction cs with
  | nil =>
      intro ctx st
      refine ⟨ctx, [], by simp [runTrackerCalls], rfl, rfl, rfl, (rootAfter_nil _).symm⟩
  | cons hd tl ih =>
      intro ctx st
      obtain ⟨c, eid, loc⟩ := hd
      obtain ⟨ctx2, es', heq, hchain, hids, hlast, hroot⟩ :=
        ih (update_context
            { ctx with clock_vector :=
                increment_clock_vector ctx.clock_vector client.service_name client.instance_id }
            eid (callIsFirst c ctx.root_id))
          ⟨st.event_buffer ++
            [{ id := eid, trace_id := ctx.trace_id, parent_id := ctx.parent_id,
               kind := callKind c loc,
               causality_vector :=
                 increment_clock_vector ctx.clock_vector client.service_name client.instance_id,
               lock_set := [] }]⟩
      refine ⟨ctx2,
        { id := eid, trace_id := ctx.trace_id, parent_id := ctx.parent_id,
          kind := callKind c loc,
          causality_vector :=
            increment_clock_vector ctx.clock_vector client.service_name client.instance_id,
          lock_set := [] } :: es', ?_, ?_, ?_, ?_, ?_⟩
      · show runTrackerCalls client (runTrackerCall client (some ctx, st) c eid loc) tl = _
        rw [runTrackerCall_some, heq]
        simp [List.append_assoc]
      · simp only [eventsChainFrom, beq_self_eq_true, Bool.true_and]
        exact hchain
      · simpa using hids
      · rw [lastCallId_cons]
        exact hlast
      · rw [rootAfter_cons]
        exact hroot

theorem pyDictUpdate_disjoint_append (hs : List (String × String)) :
    ∀ d : List (String × String),
      (hs.all fun kv => !(d.any fun e => e.1 == kv.1)) = true →
      keysUniqueStr hs = true →
      pyDictUpdate d hs = d ++ hs := by
  induction hs with
  | nil => intro d _ _; simp [pyDictUpdate]
  | cons kv t ih =>
      intro d hd hu
      obtain ⟨k, v⟩ := kv
      simp only [List.all_cons, Bool.and_eq_true, Bool.not_eq_true'] at hd
      simp only [keysUniqueStr, Bool.and_eq_true, Bool.not_eq_true'] at hu
      have hstep : pyDictUpdate d ((k, v) :: t) = pyDictUpdate (d ++ [(k, v)]) t := by
        show pyDictUpdate (pySetItem d k v) t = _
        rw [show pySetItem d k v = d ++ [(k, v)] by unfold pySetItem; rw [hd.1]; simp]
      rw [hstep, ih (d ++ [(k, v)]) ?_ hu.2]
      · simp
      · simp only [List.all_eq_true, Bool.not_eq_true', List.any_append, List.any_cons,
          List.any_nil, Bool.or_eq_false_iff, Bool.or_false]
        intro kv2 hmem
        have h1 : (d.any fun e => e.1 == kv2.1) = false := by
          have := List.all_eq_true.mp hd.2 kv2 hmem
          simpa using this
        have h2 : (k == kv2.1) = false := by
          have h3 : (kv2.1 == k) = false := by
            have := hu.1
            rw [List.any_eq_false] at this
            have h4 := this kv2 hmem
            simpa using h4
          simp only [beq_eq_false_iff_ne] at h3 ⊢
          exact fun e => h3 e.symm
        exact ⟨h1, h2⟩

theorem parse_traceparent_span_not_empty (v : String) (tp : TraceparentData)
    (h : _parse_traceparent v = some tp) : (tp.span_id == "") = false := by
  unfold _parse_traceparent at h
  split at h
  · rename_i a t s d heq
    split at h
    · exact absurd h (by simp)
    · rename_i hcond
      simp only [Bool.or_eq_true, Bool.not_eq_true'] at hcond
      push_neg at hcond
      obtain ⟨-, h16⟩ := hcond
      have hlen : s.data.length = 16 := by
        have : _is_hex s 16 = true := by
          cases hx : _is_hex s 16 with
          | true => rfl
          | false => exact absurd hx h16
        unfold _is_hex at this
        simp only [Bool.and_eq_true, beq_iff_eq] at this
        exact this.1
      have hsp : tp.span_id = pyLower s := by
        cases h
        rfl
      rw [hsp]
      simp only [beq_eq_false_iff_ne]
      intro he
      have hdata : (pyLower s).data = ("" : String).data := by rw [he]
      unfold pyLower at hdata
      simp only [String.data] at hdata
      have : s.data.map pyLowerChar = [] := hdata
      have hnil : s.data = [] := by
        cases hs2 : s.data with
        | nil => rfl
        | cons a b => rw [hs2] at this; simp at this
      rw [hnil] at hlen
      simp at hlen
  · exact absurd h (by simp)

/-- C8: every Tracker API operation (track_state_change, track_function_call,
track_http_request, track_http_response, track_lock_acquire,
track_lock_release) invoked with no bound Context returns silently: the
context stays absent, the event buffer is unchanged, no event is buffered and
no error is raised (each operation is total and its none branch returns the
state untouched). -/
theorem C8_tracker_silent_without_context (client : RacewayClient) (st : ClientState)
    (v : String) (o n : Json) (a f : String) (args : Json) (fl : String) (ln : Nat)
    (m u : String) (hd : Option (List (String × String))) (b : Json) (status dms : Nat)
    (li lt eid loc : String) :
    track_state_change client st none v o n a eid loc = (none, st) ∧
    track_function_call client st none f args eid fl ln = (none, st) ∧
    track_http_request client st none m u hd b eid = (none, st) ∧
    track_http_response client st none status hd b dms eid = (none, st) ∧
    track_lock_acquire client st none li lt eid loc = (none, st) ∧
    track_lock_release client st none li lt eid loc = (none, st) :=
  ⟨rfl, rfl, rfl, rfl, rfl, rfl⟩

/-- C6 (amended): the event buffer is unbounded and appending never drops:
_capture_event appends the new event after all previously buffered ones, the
buffer grows by exactly one, and the background flush is started exactly when
the new length reaches batch_size.  No event is dropped and no drop counter
exists. -/
theorem C6_capture_appends_unbounded (client : RacewayClient) (st : ClientState)
    (ctx : RacewayContext) (kind : EventKind) (eid : String) :
    (_capture_event client st ctx kind eid).2.2.1.event_buffer =
      st.event_buffer ++ [(_capture_event client st ctx kind eid).2.1] ∧
    (_capture_event client st ctx kind eid).2.2.1.event_buffer.length =
      st.event_buffer.length + 1 ∧
    (_capture_event client st ctx kind eid).2.2.2 =
      decide (client.batch_size ≤ st.event_buffer.length + 1) := by
  refine ⟨rfl, by simp [_capture_event], by simp [_capture_event]⟩

/-- C6 counterexample: with batch_size = 2 and an already full buffer
[e1, e2], capturing a third event keeps all three events in the buffer; the
oldest event e1 is still at the head, contradicting the claimed drop-oldest
behaviour. -/
theorem C6_counterexample_full_buffer_keeps_oldest :
    (_capture_event smallBatchClient ⟨[bufEvent "e1", bufEvent "e2"]⟩ freshCtx
        (.StateChange "x" .null .null "l" "Write") "e3").2.2.1.event_buffer.length = 3 ∧
    (_capture_event smallBatchClient ⟨[bufEvent "e1", bufEvent "e2"]⟩ freshCtx
        (.StateChange "x" .null .null "l" "Write") "e3").2.2.1.event_buffer.head? =
      some (bufEvent "e1") :=
  ⟨rfl, rfl⟩

/-- C10: RacewayClient.request invoked with no bound Context catches the
RuntimeError from propagation_headers internally: the request is still
performed, the transmitted headers are exactly the caller-supplied ones (no
trace propagation headers), the context var stays absent, and no error
reaches the caller (request is total). -/
theorem C10_request_without_context (client : RacewayClient)
    (hs : List (String × String)) (child : String) :
    request client none hs child = (none, pyDictUpdate [] hs) ∧
    (keysUniqueStr hs = true → (request client none hs child).2 = hs) := by
  constructor
  · rfl
  · intro hu
    show pyDictUpdate (pyDictUpdate [] []) hs = hs
    have h2 := pyDictUpdate_disjoint_append hs [] (by simp) hu
    simpa using h2

/-- C10 witness: a concrete request outside a context transmits exactly the
caller header. -/
theorem C10_request_without_context_witness :
    keysUniqueStr [("x-user", "u")] = true ∧
    (request demoClient none [("x-user", "u")] "cafe").2 = [("x-user", "u")] :=
  ⟨by decide, (C10_request_without_context demoClient [("x-user", "u")] "cafe").2 (by decide)⟩

/-- C4 (amended): for every sequence of Tracker calls run in a freshly bound
Context, the buffered events form a chain: each event's parent_id is the
previous event's id and the first event has none; the Context's
parent_event_id always becomes the newest event's id.  root_event_id is set
by the first captured event of any operation other than track_http_response
and never changes afterwards; track_http_response alone never sets it (the
source passes is_first_event = False), so a chain that starts with an
HttpResponse event has no root_event_id until another operation runs. -/
theorem C4_event_chain (client : RacewayClient) (ctx : RacewayContext) (st : ClientState)
    (cs : List (TrackerCall × String × String))
    (hroot : ctx.root_id = none) (hparent : ctx.parent_id = none)
    (hbuf : st.event_buffer = []) :
    ∃ ctx2 es,
      runTrackerCalls client (some ctx, st) cs = (some ctx2, ⟨es⟩) ∧
      eventsChainFrom none es = true ∧
      es.map Event.id = cs.map (fun t => t.2.1) ∧
      ctx2.parent_id = lastCallId none cs ∧
      ctx2.root_id = firstNonResponseId cs := by
  obtain ⟨ctx2, es, heq, hch, hids, hl, hr⟩ := runTrackerCalls_spec client cs ctx st
  rw [hroot] at hr
  rw [hparent] at hch hl
  rw [hbuf] at heq
  exact ⟨ctx2, es, by simpa using heq, hch, hids, hl, by simpa [rootAfter] using hr⟩

/-- C4 witness: a state change followed by an HTTP response, from a fresh
context. -/
theorem C4_event_chain_witness :
    ∃ ctx2 es,
      runTrackerCalls demoClient (some freshCtx, ⟨[]⟩)
          [(.state_change "x" .null (.int 1) "Write", "e1", "l"),
           (.http_response 200 none .null 0, "e2", "l")] =
        (some ctx2, ⟨es⟩) ∧
      eventsChainFrom none es = true ∧
      es.map Event.id =
        ([(TrackerCall.state_change "x" .null (.int 1) "Write", "e1", "l"),
          (TrackerCall.http_response 200 none .null 0, "e2", "l")]).map (fun t => t.2.1) ∧
      ctx2.parent_id = lastCallId none
        [(TrackerCall.state_change "x" .null (.int 1) "Write", "e1", "l"),
         (TrackerCall.http_response 200 none .null 0, "e2", "l")] ∧
      ctx2.root_id = firstNonResponseId
        [(TrackerCall.state_change "x" .null (.int 1) "Write", "e1", "l"),
         (TrackerCall.http_response 200 none .null 0, "e2", "l")] :=
  C4_event_chain demoClient freshCtx ⟨[]⟩ _ rfl rfl rfl

/-- C4 counterexample: the first event captured through track_http_response
advances parent_event_id and buffers an event, but leaves root_event_id
unset, contradicting the claim that a first event always becomes the root. -/
theorem C4_counterexample_response_never_roots :
    ((runTrackerCalls demoClient (some freshCtx, ⟨[]⟩)
        [(.http_response 200 none .null 0, "ev1", "loc")]).1.map
          RacewayContext.parent_id) = some (some "ev1") ∧
    ((runTrackerCalls demoClient (some freshCtx, ⟨[]⟩)
        [(.http_response 200 none .null 0, "ev1", "loc")]).1.map
          RacewayContext.root_id) = some none ∧
    (runTrackerCalls demoClient (some freshCtx, ⟨[]⟩)
        [(.http_response 200 none .null 0, "ev1", "loc")]).2.event_buffer.map Event.id =
      ["ev1"] :=
  ⟨rfl, rfl, rfl⟩

/-- C2 (amended): the at-most-one-entry-per-component invariant holds for
freshly created contexts and is preserved by the clock increment performed on
event capture and header emission, and by the receiver inserting its own
component during parse; but Propagator.parse adopts a payload's clock entries
verbatim, so the parsed vector is unique only when the payload entries were:
duplicated component ids in a raceway-clock payload are all kept (no
first-occurrence-wins dropping exists in the code). -/
theorem C2_clock_uniqueness :
    (∀ cv svc inst, keysUnique cv = true →
      keysUnique (increment_clock_vector cv svc inst) = true) ∧
    (∀ cv comp, keysUnique cv = true →
      keysUnique (ensure_own_component cv comp) = true) ∧
    (∀ tid sid psid d cvo ts f1 f2 f3, keysUnique (cvo.getD []) = true →
      keysUnique (create_context tid sid psid d cvo ts f1 f2 f3).clock_vector = true) ∧
    (∀ hs svc inst ft fs r,
      headerGet hs RACEWAY_CLOCK_HEADER = none →
      parse_incoming_headers hs svc inst ft fs = .ok r →
      keysUnique r.clock_vector = true) ∧
    (∀ hs svc inst ft fs rc pc r,
      headerGet hs RACEWAY_CLOCK_HEADER = some rc → (rc == "") = false →
      _parse_raceway_clock rc = .ok (some pc) →
      parse_incoming_headers hs svc inst ft fs = .ok r →
      keysUnique pc.clock = true →
      keysUnique r.clock_vector = true) := by
  refine ⟨increment_preserves_keysUnique, ensure_preserves_keysUnique, ?_, ?_, ?_⟩
  · intro tid sid psid d cvo ts f1 f2 f3 h
    simpa [create_context] using h
  · intro hs svc inst ft fs r hnone hp
    rw [parse_eq_no_clock hs svc inst ft fs (by rw [hnone]; rfl)] at hp
    cases hp
    exact ensure_preserves_keysUnique [] _ rfl
  · intro hs svc inst ft fs rc pc r hsome hne hpc hp hu
    rw [parse_eq_clock_some hs svc inst ft fs rc pc hsome hne hpc] at hp
    cases hp
    exact ensure_preserves_keysUnique pc.clock _ hu

/-- C2 witness: uniqueness is preserved at a concrete increment and at a
concrete parse of a duplicate-free payload. -/
theorem C2_clock_uniqueness_witness :
    keysUnique (increment_clock_vector [("a#1", 1), ("b#2", 4)] "a" "1") = true ∧
    keysUnique (ParsedTraceContext.clock_vector
      ⟨.str "11111111-2222-3333-4444-555555555555", "fs", .str "00f067aa0ba902b7", none,
        [("x#1", 7), ("svc#i", 0)], true⟩) = true :=
  ⟨C2_clock_uniqueness.1 [("a#1", 1), ("b#2", 4)] "a" "1" (by decide),
    C2_clock_uniqueness.2.2.2.2 [("raceway-clock", otherTraceClockHeaderValue)] "svc" "i" "ft"
      "fs" otherTraceClockHeaderValue
      ⟨.str "11111111-2222-3333-4444-555555555555", .str "00f067aa0ba902b7", [("x#1", 7)]⟩
      ⟨.str "11111111-2222-3333-4444-555555555555", "fs", .str "00f067aa0ba902b7", none,
        [("x#1", 7), ("svc#i", 0)], true⟩
      rfl (by decide) rfl rfl (by decide)⟩

/-- C2 counterexample: a raceway-clock payload carrying the component a#1
twice produces a Context whose vector clock holds both entries, violating
the claimed per-component uniqueness; neither occurrence wins. -/
theorem C2_counterexample_duplicate_components :
    parse_incoming_headers [("raceway-clock", dupClockHeaderValue)] "svc" "i" "ft" "fs" =
      .ok ⟨.str "t-1", "fs", .str "s1", none, [("a#1", 1), ("a#1", 2), ("svc#i", 0)], true⟩ ∧
    keysUnique [("a#1", 1), ("a#1", 2), ("svc#i", 0)] = false :=
  ⟨rfl, rfl⟩

/-- C3 (amended): when both headers are valid, parent_span_id is taken from
the traceparent and the payload's span_id is ignored; distributed is set; the
clock entries are the payload's plus the receiver's own component.  The
payload's trace_id, however, is not ignored: whenever it is truthy it
overrides the traceparent's trace_id; the traceparent's trace_id survives
only when the payload's is falsy.  Without a traceparent the payload's
trace_id and span_id are adopted (when truthy) as trace_id and
parent_span_id. -/
theorem C3_trace_adoption :
    (∀ hs svc inst ft fs v rc tp pc r,
      headerGet hs TRACEPARENT_HEADER = some v → (v == "") = false →
      _parse_traceparent v = some tp →
      headerGet hs RACEWAY_CLOCK_HEADER = some rc → (rc == "") = false →
      _parse_raceway_clock rc = .ok (some pc) →
      parse_incoming_headers hs svc inst ft fs = .ok r →
      r.parent_span_id = .str tp.span_id ∧
      r.distributed = true ∧
      r.clock_vector = ensure_own_component pc.clock (_clock_component svc inst) ∧
      (jsonTruthy pc.trace_id = true → r.trace_id = pc.trace_id) ∧
      (jsonTruthy pc.trace_id = false → r.trace_id = .str tp.trace_id)) ∧
    (∀ hs svc inst ft fs rc pc r,
      headerGet hs TRACEPARENT_HEADER = none →
      headerGet hs RACEWAY_CLOCK_HEADER = some rc → (rc == "") = false →
      _parse_raceway_clock rc = .ok (some pc) →
      parse_incoming_headers hs svc inst ft fs = .ok r →
      (jsonTruthy pc.parent_span_id = true → r.parent_span_id = pc.parent_span_id) ∧
      (jsonTruthy pc.parent_span_id = false → r.parent_span_id = .null) ∧
      (jsonTruthy pc.trace_id = true → r.trace_id = pc.trace_id) ∧
      (jsonTruthy pc.trace_id = false → r.trace_id = .str ft)) := by
  constructor
  · intro hs svc inst ft fs v rc tp pc r htp hv htpp hrc hne hpc hp
    rw [parse_eq_clock_some hs svc inst ft fs rc pc hrc hne hpc] at hp
    have hst : traceparentState (headerGet hs TRACEPARENT_HEADER) ft =
        (Json.str tp.trace_id, Json.str tp.span_id, true) := by
      rw [htp]
      unfold traceparentState
      simp only [optStrTruthy, hv, Bool.not_false, if_true, Option.getD_some, htpp]
    rw [hst] at hp
    have hspan : jsonTruthy (Json.str tp.span_id) = true := by
      simp only [jsonTruthy, Bool.not_eq_true']
      exact parse_traceparent_span_not_empty v tp htpp
    cases hp
    refine ⟨?_, rfl, rfl, ?_, ?_⟩
    · simp [hspan]
    · intro ht
      simp [ht]
    · intro ht
      simp [ht]
  · intro hs svc inst ft fs rc pc r htp hrc hne hpc hp
    rw [parse_eq_clock_some hs svc inst ft fs rc pc hrc hne hpc] at hp
    have hst : traceparentState (headerGet hs TRACEPARENT_HEADER) ft =
        (Json.str ft, Json.null, false) := by
      rw [htp]
      rfl
    rw [hst] at hp
    cases hp
    have hnull : jsonTruthy Json.null = false := rfl
    refine ⟨?_, ?_, ?_, ?_⟩ <;> intro ht <;>
      simp only [hnull, Bool.not_false, Bool.true_and, ht] <;> rfl

/-- C3 witness: both conjuncts at a concrete pair of headers. -/
theorem C3_trace_adoption_witness :
    (ParsedTraceContext.parent_span_id
        ⟨.str "11111111-2222-3333-4444-555555555555", "fs", .str "b7ad6b7169203331", none,
          [("x#1", 7), ("svc#i", 0)], true⟩ = .str "b7ad6b7169203331") ∧
    (ParsedTraceContext.trace_id
        ⟨.str "11111111-2222-3333-4444-555555555555", "fs", .str "b7ad6b7169203331", none,
          [("x#1", 7), ("svc#i", 0)], true⟩ = .str "11111111-2222-3333-4444-555555555555") :=
  by
  have h := C3_trace_adoption.1
    [("traceparent", validTraceparentValue), ("raceway-clock", otherTraceClockHeaderValue)]
    "svc" "i" "ft" "fs" validTraceparentValue otherTraceClockHeaderValue
    ⟨"0af76519-16cd-43dd-8448-eb211c80319c", "b7ad6b7169203331"⟩
    ⟨.str "11111111-2222-3333-4444-555555555555", .str "00f067aa0ba902b7", [("x#1", 7)]⟩
    ⟨.str "11111111-2222-3333-4444-555555555555", "fs", .str "b7ad6b7169203331", none,
      [("x#1", 7), ("svc#i", 0)], true⟩
    rfl (by decide) rfl rfl (by decide) rfl rfl
  exact ⟨h.1, h.2.2.2.1 rfl⟩

/-- C3 counterexample: with a valid traceparent (trace id 0af76519-...) and a
valid raceway-clock whose payload names a different trace id, the resulting
Context takes the payload's trace id, not the traceparent's, refuting the
claimed only-when-no-traceparent adoption. -/
theorem C3_counterexample_payload_overrides_traceparent :
    parse_incoming_headers
        [("traceparent", validTraceparentValue), ("raceway-clock", otherTraceClockHeaderValue)]
        "svc" "i" "ft" "fs" =
      .ok ⟨.str "11111111-2222-3333-4444-555555555555", "fs", .str "b7ad6b7169203331", none,
        [("x#1", 7), ("svc#i", 0)], true⟩ ∧
    (_parse_traceparent validTraceparentValue).map TraceparentData.trace_id =
      some "0af76519-16cd-43dd-8448-eb211c80319c" ∧
    Json.str "11111111-2222-3333-4444-555555555555" ≠
      Json.str "0af76519-16cd-43dd-8448-eb211c80319c" := by
  refine ⟨rfl, rfl, ?_⟩
  intro h
  injection h with h2
  exact absurd h2 (by decide)

/-- C5 (amended): traceparent parsing succeeds exactly when the (stripped)
value splits on dashes into exactly four segments whose second and third
parse as base-16 integers of raw length 32 and 16 under Python's int()
(which also admits surrounding whitespace, a sign, a 0x marker and
underscores); the first and fourth segments (version and flags) are not
validated at all.  On any failure, and with no raceway-clock header, the
resulting Context carries the freshly generated trace id, a null
parent_span_id, distributed = False, the fresh span id and only the
receiver's own zero clock component. -/
theorem C5_traceparent_validation :
    (∀ value a t s d, pySplitDash (pyStrip value) = [a, t, s, d] →
      (_parse_traceparent value).isSome = (_is_hex t 32 && _is_hex s 16)) ∧
    (∀ value, (pySplitDash (pyStrip value)).length ≠ 4 →
      _parse_traceparent value = none) ∧
    (∀ hs svc inst ft fs v r,
      headerGet hs TRACEPARENT_HEADER = some v →
      _parse_traceparent v = none →
      headerGet hs RACEWAY_CLOCK_HEADER = none →
      parse_incoming_headers hs svc inst ft fs = .ok r →
      r.trace_id = .str ft ∧ r.parent_span_id = .null ∧ r.distributed = false ∧
      r.span_id = fs ∧ r.clock_vector = [(_clock_component svc inst, 0)]) := by
  refine ⟨?_, ?_, ?_⟩
  · intro value a t s d hsp
    unfold _parse_traceparent
    rw [hsp]
    show (if (!_is_hex t 32 || !_is_hex s 16) = true then none
      else some ⟨_traceparent_to_uuid t, pyLower s⟩ : Option TraceparentData).isSome =
        (_is_hex t 32 && _is_hex s 16)
    by_cases h1 : (!_is_hex t 32 || !_is_hex s 16) = true
    · rw [if_pos h1]
      simp only [Bool.or_eq_true, Bool.not_eq_true'] at h1
      rcases h1 with h | h <;> simp [h]
    · rw [if_neg h1]
      simp only [Bool.or_eq_true, Bool.not_eq_true'] at h1
      push_neg at h1
      obtain ⟨hta, hsa⟩ := h1
      simp only [Option.isSome_some, Bool.not_eq_false] at *
      rw [hta, hsa]
      rfl
  · intro value hlen
    unfold _parse_traceparent
    split
    · rename_i a t s d heq
      exact absurd (by rw [heq]; rfl) hlen
    · rfl
  · intro hs svc inst ft fs v r htp hinv hnc hp
    rw [parse_eq_no_clock hs svc inst ft fs (by rw [hnc]; rfl)] at hp
    have hst : traceparentState (headerGet hs TRACEPARENT_HEADER) ft =
        (Json.str ft, Json.null, false) := by
      rw [htp]
      unfold traceparentState
      by_cases hv : (v == "") = true
      · simp only [optStrTruthy, hv, Bool.not_true, Bool.false_eq_true, if_false]
      · simp only [optStrTruthy, Bool.not_eq_true', Bool.not_eq_false] at hv
        simp only [optStrTruthy, hv, Bool.not_false, if_true, Option.getD_some, hinv]
    rw [hst] at hp
    cases hp
    exact ⟨rfl, rfl, rfl, rfl, rfl⟩

/-- C5 witness: the three conjuncts at a well-formed traceparent, at a
two-segment value, and at the invalid-format scenario of the spec. -/
theorem C5_traceparent_validation_witness :
    (_parse_traceparent validTraceparentValue).isSome =
      (_is_hex "0af7651916cd43dd8448eb211c80319c" 32 && _is_hex "b7ad6b7169203331" 16) ∧
    _parse_traceparent "invalid-format" = none ∧
    (ParsedTraceContext.distributed
      ⟨.str "ft", "fs", .null, none, [("test-service#instance-1", 0)], false⟩ = false) := by
  refine ⟨?_, ?_, ?_⟩
  · exact C5_traceparent_validation.1 validTraceparentValue "00"
      "0af7651916cd43dd8448eb211c80319c" "b7ad6b7169203331" "01" rfl
  · exact C5_traceparent_validation.2.1 "invalid-format" (by decide)
  · exact (C5_traceparent_validation.2.2 [("traceparent", "invalid-format")] "test-service"
      "instance-1" "ft" "fs" "invalid-format"
      ⟨.str "ft", "fs", .null, none, [("test-service#instance-1", 0)], false⟩
      rfl rfl rfl rfl).2.2.1

/-- C5 counterexample: a traceparent whose version and flags segments are not
hex still parses successfully, refuting the succeeds-exactly-when-each-
segment-is-valid-hex claim (claim_valid_traceparent states the claim's
validity condition). -/
theorem C5_counterexample_bad_version_accepted :
    _parse_traceparent oddTraceparentValue =
      some ⟨"0af76519-16cd-43dd-8448-eb211c80319c", "b7ad6b7169203331"⟩ ∧
    claim_valid_traceparent oddTraceparentValue = false :=
  ⟨rfl, rfl⟩

/-- C7: emitting propagation headers never mutates the Context's span_id:
after one emission and after a second successive emission the span_id is
unchanged, while each emission's traceparent header and clock payload carry
the freshly generated child span id of that emission (c1, then c2), and the
two child ids are distinct whenever the generator yields distinct tokens. -/
theorem C7_emit_preserves_span_id (client : RacewayClient) (ctx : RacewayContext)
    (extra : Option (List (String × String))) (c1 c2 : String)
    (ctx1 ctx2 : RacewayContext) (h1 h2 : List (String × String))
    (hd : c1 ≠ c2)
    (e1 : propagation_headers client (some ctx) extra c1 = .ok (ctx1, h1))
    (e2 : propagation_headers client (some ctx1) extra c2 = .ok (ctx2, h2)) :
    ctx1.span_id = ctx.span_id ∧ ctx2.span_id = ctx.span_id ∧
    (build_propagation_headers ctx.trace_id ctx.span_id ctx.tracestate ctx.clock_vector
        client.service_name client.instance_id c1).child_span_id = c1 ∧
    (build_propagation_headers ctx1.trace_id ctx1.span_id ctx1.tracestate ctx1.clock_vector
        client.service_name client.instance_id c2).child_span_id = c2 ∧
    c1 ≠ c2 ∧
    (TRACEPARENT_HEADER,
        TRACEPARENT_VERSION ++ "-" ++ _uuid_to_traceparent ctx.trace_id ++ "-" ++ c1 ++
          "-" ++ TRACE_FLAGS) ∈
      (build_propagation_headers ctx.trace_id ctx.span_id ctx.tracestate ctx.clock_vector
        client.service_name client.instance_id c1).headers ∧
    (RACEWAY_CLOCK_HEADER,
        CLOCK_VERSION_TAG ++ _encode_base64url (json_dumps_compact
          (propagation_payload ctx.trace_id c1 ctx.span_id client.service_name
            client.instance_id
            (increment_clock_vector ctx.clock_vector client.service_name
              client.instance_id)))) ∈
      (build_propagation_headers ctx.trace_id ctx.span_id ctx.tracestate ctx.clock_vector
        client.service_name client.instance_id c1).headers := by
  unfold propagation_headers at e1 e2
  injection e1 with p1
  injection e2 with p2
  have hc1 : ctx1 = { ctx with
      clock_vector :=
        (build_propagation_headers ctx.trace_id ctx.span_id ctx.tracestate ctx.clock_vector
          client.service_name client.instance_id c1).clock_vector,
      distributed := true } := (congrArg Prod.fst p1).symm
  have hc2 : ctx2 = { ctx1 with
      clock_vector :=
        (build_propagation_headers ctx1.trace_id ctx1.span_id ctx1.tracestate ctx1.clock_vector
          client.service_name client.instance_id c2).clock_vector,
      distributed := true } := (congrArg Prod.fst p2).symm
  have hs1 : ctx1.span_id = ctx.span_id := by rw [hc1]
  have hs2 : ctx2.span_id = ctx.span_id := by rw [hc2, hs1]
  refine ⟨hs1, hs2, rfl, rfl, hd, ?_, ?_⟩ <;>
    · unfold build_propagation_headers
      cases ctx.tracestate with
      | none => simp
      | some ts =>
          by_cases hts : (ts == "") = true <;> simp [hts]

/-- C7 witness: two successive emissions from a concrete fresh context leave
its span id unchanged and carry the two distinct supplied child ids. -/
theorem C7_emit_preserves_span_id_witness :
    (RacewayContext.span_id
      { freshCtx with clock_vector := [("svc-a#a1", 1)], distributed := true }) =
        freshCtx.span_id ∧
    (RacewayContext.span_id
      { freshCtx with clock_vector := [("svc-a#a1", 2)], distributed := true }) =
        freshCtx.span_id ∧
    ("aaaa0000aaaa0000" : String) ≠ "bbbb0000bbbb0000" := by
  have h := C7_emit_preserves_span_id demoClient freshCtx none
    "aaaa0000aaaa0000" "bbbb0000bbbb0000"
    { freshCtx with clock_vector := [("svc-a#a1", 1)], distributed := true }
    { freshCtx with clock_vector := [("svc-a#a1", 2)], distributed := true }
    (pyDictUpdate (build_propagation_headers "trace-0" "aaaaaaaaaaaaaaaa" none []
      "svc-a" "a1" "aaaa0000aaaa0000").headers [])
    (pyDictUpdate (build_propagation_headers "trace-0" "aaaaaaaaaaaaaaaa" none
      [("svc-a#a1", 1)] "svc-a" "a1" "bbbb0000bbbb0000").headers [])
    (by decide) rfl rfl
  exact ⟨h.1, h.2.1, h.2.2.2.2.1⟩

/-- C9: under a bound Context and a lock object satisfying the helper's
capability check (acquire and release attributes, or the context-manager
protocol), tracked_lock acquires the lock, emits exactly one LockAcquire
followed by exactly one LockRelease, and releases the lock on both exit
paths; a body error is re-raised to the caller after the release.  Outside a
bound Context it raises RuntimeError before touching the lock and emits
nothing; given a lock with neither capability it raises TypeError before the
lock is taken and emits nothing. -/
theorem C9_tracked_lock_discipline (client : RacewayClient) (st : ClientState)
    (ctx : RacewayContext) (lock : LockObj) (lid lt msg ea er la lr : String)
    (body : Option String) :
    (((lock.has_acquire && lock.has_release) || (lock.has_enter && lock.has_exit)) = true →
      ((tracked_lock client st (some ctx) lock lid lt none ea er la lr).st.event_buffer.map
            Event.kind =
          st.event_buffer.map Event.kind ++ [.LockAcquire lid lt la, .LockRelease lid lt lr] ∧
        (tracked_lock client st (some ctx) lock lid lt none ea er la lr).lock_actions =
          [.acquired, .released] ∧
        (tracked_lock client st (some ctx) lock lid lt none ea er la lr).outcome = .ok) ∧
      ((tracked_lock client st (some ctx) lock lid lt (some msg) ea er la
            lr).st.event_buffer.map Event.kind =
          st.event_buffer.map Event.kind ++ [.LockAcquire lid lt la, .LockRelease lid lt lr] ∧
        (tracked_lock client st (some ctx) lock lid lt (some msg) ea er la lr).lock_actions =
          [.acquired, .released] ∧
        (tracked_lock client st (some ctx) lock lid lt (some msg) ea er la lr).outcome =
          .bodyError msg)) ∧
    tracked_lock client st none lock lid lt body ea er la lr = ⟨none, st, [], .runtimeError⟩ ∧
    (((lock.has_acquire && lock.has_release) || (lock.has_enter && lock.has_exit)) = false →
      tracked_lock client st (some ctx) lock lid lt body ea er la lr =
        ⟨some ctx, st, [], .typeError⟩) := by
  refine ⟨?_, rfl, ?_⟩
  · intro hcap
    simp only [tracked_lock, hcap, eq_self_iff_true, if_true]
    refine ⟨⟨?_, trivial, trivial⟩, ?_, trivial, trivial⟩ <;>
      simp [track_lock_acquire, track_lock_release, _capture_event]
  · intro hcap
    simp only [tracked_lock, hcap, Bool.false_eq_true, if_false]

/-- C9 witness: the acquire-release capable lock around a failing body, and a
capability-free lock. -/
theorem C9_tracked_lock_discipline_witness :
    (tracked_lock demoClient ⟨[]⟩ (some freshCtx) ⟨true, true, false, false⟩ "acct" "Mutex"
        (some "boom") "e1" "e2" "l1" "l2").st.event_buffer.map Event.kind =
      [.LockAcquire "acct" "Mutex" "l1", .LockRelease "acct" "Mutex" "l2"] ∧
    (tracked_lock demoClient ⟨[]⟩ (some freshCtx) ⟨true, true, false, false⟩ "acct" "Mutex"
        (some "boom") "e1" "e2" "l1" "l2").outcome = .bodyError "boom" ∧
    tracked_lock demoClient ⟨[]⟩ (some freshCtx) ⟨false, false, false, false⟩ "acct" "Mutex"
        none "e1" "e2" "l1" "l2" = ⟨some freshCtx, ⟨[]⟩, [], .typeError⟩ := by
  have h1 := (C9_tracked_lock_discipline demoClient ⟨[]⟩ freshCtx ⟨true, true, false, false⟩
    "acct" "Mutex" "boom" "e1" "e2" "l1" "l2" (some "boom")).1 (by decide)
  have h2 := (C9_tracked_lock_discipline demoClient ⟨[]⟩ freshCtx ⟨false, false, false, false⟩
    "acct" "Mutex" "boom" "e1" "e2" "l1" "l2" none).2.2 (by decide)
  exact ⟨h1.2.1, h1.2.2.2, h2⟩

/-- C1: full evaluation of parse(emit(c)) for a concrete sender Context
(trace 0af76519-..., span b7ad6b7169203331, clock [(a#1, 0)]) received by
service b, instance 1.  The receiver's trace_id equals the sender's, the
clock entry (a#1, 1) of the just-incremented sender clock appears, and
distributed is true — but parent_span_id is the freshly generated child span
id carried in the headers (00f067aa0ba902b7), not the sender's span_id, and
the receiver's span_id is a fresh token rather than the child id.  The
repository's own test (test_trace_context.test_full_request_flow) asserts
parent_span_id == sender span and span_id == child id, which this evaluation
refutes for the code as written. -/
theorem C1_roundtrip_code_evaluation :
    parse_incoming_headers rtEmit.headers "b" "1" "fresh-trace" "freshspan000000a" =
      .ok ⟨.str rtTraceId, "freshspan000000a", .str rtChildSpan, none,
        [("a#1", 1), ("b#1", 0)], true⟩ ∧
    rtEmit.child_span_id = rtChildSpan ∧
    rtEmit.clock_vector = [("a#1", 1)] ∧
    rtChildSpan ≠ rtSenderSpan :=
  ⟨rfl, rfl, rfl, by decide⟩
